import Mathlib

/-!
Verification development for the biome-profile formula DSL
(`src/voxels/biome_profile.rs`): a compiler from textual formulas such as
`If(Less(Depth,0.2),Add(Moisture,0.1),0.0)` into typed instruction trees,
and a purely functional evaluator of those trees against a per-sample
context.

Modelling conventions:
- `f32` values are embedded as `ℚ` (`Rat`); the arithmetic performed by the
  code is literal `+`, `-`, `<` on its numbers, which the embedding mirrors.
- The external Perlin-noise primitive (`PERLIN.get`) is a read-only global
  function of the 3-D position; it is passed to the evaluator as an explicit
  parameter `noise : IVec3 → ℚ`.
- The external voxel registry (`get_voxel_by_name`) is passed as a
  parameter `registry : String → Option Nat` returning the voxel id.
- Rust panics (`panic!`, `Option::unwrap` on `None`) are embedded as
  `Except.error` carrying the panic's message (unwrap failures carry the
  fixed message "called Option.unwrap on a None value").
- The recursive builders terminate in the code because every recursive call
  receives a strictly shorter substring; the embedding makes this explicit
  with a fuel parameter, `.error "out of fuel"` marking exhaustion (never
  reached at sufficient fuel).
- `str::parse::<f32>` accepts finite literals (optional sign, digits,
  optional fractional part, optional exponent — all exact in `ℚ`, returned
  by `parseF32`) and the case-insensitive special spellings `inf`,
  `infinity`, `nan`, which denote non-finite floats with no `ℚ` value
  (decided by `isF32SpecialSpelling`; the full accept/reject decision is
  `parsesAsF32`). Statements quantifying over formula texts restrict to
  texts the full grammar rejects, since a bare special spelling would
  compile to a non-finite constant outside the `ℚ` embedding.
- `serde_json` is an external collaborator; `BiomeProfile::from_json` is
  embedded from the parsed JSON value onward, with the narrow accessor
  interface (`get`, `as_str`, `as_array`, `as_f64`) modelled on a `Json`
  inductive.
-/

/-- The 3-D integer position type (external `glam::IVec3`). -/
structure IVec3 where
  x : Int
  y : Int
  z : Int
deriving DecidableEq, Repr

/-- The immutable per-sample input record (`SampleContext`). -/
structure SampleContext where
  position : IVec3
  depth : Rat
  moisture : Rat
  temperature : Rat
  density : Rat
deriving DecidableEq, Repr

/-- The enumerated set of voxel shapes (external `voxel_shapes`). -/
inductive VoxelShape where
  | CUBE : VoxelShape
  | SLAB : VoxelShape
deriving DecidableEq, Repr

/-- The voxel record produced by sampling (external `VoxelData`). -/
structure VoxelData where
  shape : VoxelShape
  state : Nat
  id : Nat
deriving DecidableEq, Repr

mutual
/-- Number-typed instruction trees: the `Instruction<f32>` implementors
(`ConstInstruction`, `SubtractInstruction`, `AddInstruction`,
`IfInstruction<f32>`, `SimplexInstruction`, `DepthInstruction`,
`MoistureInstruction`, `TemperatureInstruction`, `DensityInstruction`). -/
inductive F32Instruction where
  | const : Rat → F32Instruction
  | sub : F32Instruction → F32Instruction → F32Instruction
  | add : F32Instruction → F32Instruction → F32Instruction
  | if_ : BoolInstruction → F32Instruction → F32Instruction → F32Instruction
  | simplex : Rat → Rat → F32Instruction
  | depth : F32Instruction
  | moisture : F32Instruction
  | temperature : F32Instruction
  | density : F32Instruction

/-- Boolean-typed instruction trees: the sole `Instruction<bool>`
implementor `LessInstruction`. -/
inductive BoolInstruction where
  | less : F32Instruction → F32Instruction → BoolInstruction
end

deriving instance DecidableEq for F32Instruction

deriving instance DecidableEq for BoolInstruction

deriving instance DecidableEq for Except

/-- Voxel-type-id instruction trees: `ConstInstruction<u16>` (a voxel id
resolved at compile time) and `IfInstruction<u16>`. -/
inductive U16Instruction where
  | const : Nat → U16Instruction
  | if_ : BoolInstruction → U16Instruction → U16Instruction → U16Instruction

/-- Voxel-shape instruction trees: `ConstInstruction<VoxelShape>` and
`IfInstruction<VoxelShape>`. -/
inductive ShapeInstruction where
  | const : VoxelShape → ShapeInstruction
  | if_ : BoolInstruction → ShapeInstruction → ShapeInstruction → ShapeInstruction

mutual
/-- Evaluation of a number-typed tree (`Instruction<f32>::process`). The
`simplex` leaf queries the noise function with the raw position only; its
stored wavelength and amplitude are unused, exactly as in the code. -/
def processF32 (noise : IVec3 → Rat) (c : SampleContext) : F32Instruction → Rat
  | .const v => v
  | .sub a b => processF32 noise c a - processF32 noise c b
  | .add a b => processF32 noise c a + processF32 noise c b
  | .if_ cond a b =>
      if processBool noise c cond then processF32 noise c a else processF32 noise c b
  | .simplex _ _ => noise c.position
  | .depth => c.depth
  | .moisture => c.moisture
  | .temperature => c.temperature
  | .density => c.density

/-- Evaluation of a boolean-typed tree (`LessInstruction::process`):
strict less-than on the two number sub-results. -/
def processBool (noise : IVec3 → Rat) (c : SampleContext) : BoolInstruction → Bool
  | .less a b => decide (processF32 noise c a < processF32 noise c b)
end

/-- Evaluation of a voxel-type-id tree (`Instruction<u16>::process`). -/
def processU16 (noise : IVec3 → Rat) (c : SampleContext) : U16Instruction → Nat
  | .const v => v
  | .if_ cond a b =>
      if processBool noise c cond then processU16 noise c a else processU16 noise c b

/-- Evaluation of a voxel-shape tree (`Instruction<VoxelShape>::process`). -/
def processShape (noise : IVec3 → Rat) (c : SampleContext) : ShapeInstruction → VoxelShape
  | .const v => v
  | .if_ cond a b =>
      if processBool noise c cond then processShape noise c a else processShape noise c b

/-- Whitespace trimming on character lists (model of `str::trim`; both
trim exactly the whitespace characters appearing in formulas). -/
def trimChars (cs : List Char) : List Char :=
  ((cs.dropWhile Char.isWhitespace).reverse.dropWhile Char.isWhitespace).reverse

/-- A trimmed string built from an accumulated character list. -/
def strTrimList (cs : List Char) : String :=
  String.mk (trimChars cs)

/-- Character membership in a character list (model of `str::contains`). -/
def containsChar : List Char → Char → Bool
  | [], _ => false
  | x :: xs, c => if x = c then true else containsChar xs c

/-- Split at the first occurrence of a delimiter (model of
`str::split_once`): the delimiter itself appears in neither part. -/
def splitOnceChars : List Char → Char → Option (List Char × List Char)
  | [], _ => none
  | x :: xs, delim =>
    if x = delim then some ([], xs)
    else
      match splitOnceChars xs delim with
      | some (pre, post) => some (x :: pre, post)
      | none => none

/-- `str::split_once` on strings. -/
def split_once (s : String) (delim : Char) : Option (String × String) :=
  match splitOnceChars s.data delim with
  | some (pre, post) => some (String.mk pre, String.mk post)
  | none => none

/-- The character scan of `get_instruction_params`: `depth` increments on
each opening parenthesis and decrements on each closing one; when it
reaches -1 the accumulated text is pushed as the final argument and the
scan stops; a comma at depth 0 pushes the accumulated text and starts a
new argument; every other character is accumulated. A scan that exhausts
the input returns only the arguments pushed so far. -/
def paramsLoop : List Char → Int → List Char → List String → List String
  | [], _, _, params => params
  | ch :: rest, depth, current, params =>
    let depth1 := if ch = '(' then depth + 1 else depth
    let depth2 := if ch = ')' then depth1 - 1 else depth1
    if depth2 = -1 then params ++ [strTrimList current]
    else if depth2 = 0 ∧ ch = ',' then
      paramsLoop rest depth2 [] (params ++ [strTrimList current])
    else paramsLoop rest depth2 (current ++ [ch]) params

/-- The Parameter Splitter (`get_instruction_params`). -/
def get_instruction_params (s : String) : List String :=
  paramsLoop s.data 0 [] []

/-- The numeric value of a decimal digit character. -/
def digitVal : Char → Nat
  | '0' => 0
  | '1' => 1
  | '2' => 2
  | '3' => 3
  | '4' => 4
  | '5' => 5
  | '6' => 6
  | '7' => 7
  | '8' => 8
  | '9' => 9
  | _ => 0

/-- Digits-to-number accumulation used by the literal parser. -/
def digitsToNat (ds : List Char) : Nat :=
  ds.foldl (fun acc c => acc * 10 + digitVal c) 0

/-- Span of leading decimal digits. -/
def spanDigits : List Char → List Char × List Char
  | [] => ([], [])
  | c :: cs =>
    if c.isDigit then
      let p := spanDigits cs
      (c :: p.1, p.2)
    else ([], c :: cs)

/-- The exponent digits of a float literal: an optional sign followed by
at least one decimal digit and nothing else. -/
def parseExpDigits (cs : List Char) : Option Int :=
  let q : Int × List Char :=
    match cs with
    | '-' :: r => (-1, r)
    | '+' :: r => (1, r)
    | r => (1, r)
  let ds := spanDigits q.2
  if ds.1.isEmpty then none
  else if ds.2.isEmpty then some (q.1 * (digitsToNat ds.1 : Int))
  else none

/-- The optional exponent suffix of a float literal: empty yields exponent
0, otherwise `e`/`E` followed by a signed digit string. -/
def parseExp : List Char → Option Int
  | [] => some 0
  | 'e' :: r => parseExpDigits r
  | 'E' :: r => parseExpDigits r
  | _ => none

/-- Scale a mantissa by a power-of-ten exponent (exact in `ℚ`). -/
def applyExp (x : Rat) (e : Int) : Rat :=
  if 0 ≤ e then x * 10 ^ e.toNat else x / 10 ^ (-e).toNat

/-- Model of `str::parse::<f32>` on the finite-literal productions of the
float grammar: an optional sign, decimal digits with an optional
fractional part (at least one digit in total), and an optional
`e`/`E`-exponent, with nothing left over. Every such literal is an exact
decimal scaled by a power of ten, so its value lives in `ℚ`. The grammar's
remaining productions — the case-insensitive special spellings `inf`,
`infinity` and `nan` — denote non-finite floats with no `ℚ` counterpart;
they are decided separately by `isF32SpecialSpelling` and the full
accept/reject behavior of the code's parse is `parsesAsF32`. -/
def parseF32 (s : String) : Option Rat :=
  let p : Rat × List Char :=
    match s.data with
    | '-' :: r => (-1, r)
    | '+' :: r => (1, r)
    | cs => (1, cs)
  let ints := spanDigits p.2
  match ints.2 with
  | '.' :: r2 =>
    let fracs := spanDigits r2
    if ints.1.isEmpty ∧ fracs.1.isEmpty then none
    else
      match parseExp fracs.2 with
      | none => none
      | some e =>
        some (applyExp (p.1 * ((digitsToNat ints.1 : Rat) +
          (digitsToNat fracs.1 : Rat) / (10 ^ fracs.1.length))) e)
  | rest =>
    if ints.1.isEmpty then none
    else
      match parseExp rest with
      | none => none
      | some e => some (applyExp (p.1 * (digitsToNat ints.1 : Rat)) e)

/-- The special-value productions of the float grammar: an optional sign
followed by `inf`, `infinity` or `nan` in any letter case. They parse to
non-finite floats, which have no `ℚ` value. -/
def isF32SpecialSpelling (s : String) : Bool :=
  let cs : List Char :=
    match s.data with
    | '-' :: r => r
    | '+' :: r => r
    | r => r
  let low := cs.map Char.toLower
  low == ['i', 'n', 'f'] || low == ['i', 'n', 'f', 'i', 'n', 'i', 't', 'y'] ||
    low == ['n', 'a', 'n']

/-- Whether `str::parse::<f32>` accepts the text: either a finite literal
(whose exact value `parseF32` returns) or a special non-finite
spelling. -/
def parsesAsF32 (s : String) : Bool :=
  (parseF32 s).isSome || isF32SpecialSpelling s

/-- The field-binding table (the `fields` HashMap): name to compiled
number-typed tree. -/
def Fields : Type := String → Option F32Instruction

/-- The empty field-binding table. -/
def emptyFields : Fields := fun _ => none

/-- Extension of a field-binding table (HashMap insert). -/
def insertField (fields : Fields) (name : String) (t : F32Instruction) : Fields :=
  fun s => if s = name then some t else fields s

/-- `params.get(i).unwrap()`: the i-th argument, or the unwrap panic. -/
def getParam (params : List String) (i : Nat) : Except String String :=
  match params.get? i with
  | some p => .ok p
  | none => .error "called Option.unwrap on a None value"

mutual
/-- The boolean builder (`build_bool_instruction`): split call name and
arguments at the first opening parenthesis, dispatch on the name; only
`Less` is supported. -/
def build_bool_instruction (fuel : Nat) (instruction : String) (fields : Fields) :
    Except String BoolInstruction :=
  match fuel with
  | 0 => .error "out of fuel"
  | n + 1 =>
    match split_once instruction '(' with
    | none => .error "called Option.unwrap on a None value"
    | some nd =>
      let params := get_instruction_params nd.2
      if nd.1 = "Less" then
        match getParam params 0 with
        | .error e => .error e
        | .ok p0 =>
          match build_f32_instruction n p0 fields with
          | .error e => .error e
          | .ok v1 =>
            match getParam params 1 with
            | .error e => .error e
            | .ok p1 =>
              match build_f32_instruction n p1 fields with
              | .error e => .error e
              | .ok v2 => .ok (.less v1 v2)
      else .error ("Unable to process given instruction: " ++ nd.1)

/-- The number builder (`build_f32_instruction`): (a) a numeric literal
becomes a constant node; (b) a declared field name returns the shared
bound tree; (c) with no parenthesis, one of the bare tags `Depth`,
`Moisture`, `Temperature`, `Density` becomes the matching accessor node,
anything else is an unresolved-symbol panic; (d) otherwise split at the
first opening parenthesis and dispatch: `If` and `Add` are the only call
names handled, all others (including `Subtract`) hit the panic arm. -/
def build_f32_instruction (fuel : Nat) (instruction : String) (fields : Fields) :
    Except String F32Instruction :=
  match fuel with
  | 0 => .error "out of fuel"
  | n + 1 =>
    match parseF32 instruction with
    | some number => .ok (.const number)
    | none =>
      match fields instruction with
      | some t => .ok t
      | none =>
        if ¬ containsChar instruction.data '(' then
          if instruction = "Depth" then .ok .depth
          else if instruction = "Moisture" then .ok .moisture
          else if instruction = "Temperature" then .ok .temperature
          else if instruction = "Density" then .ok .density
          else
            .error ("Constant variable '" ++ instruction ++
              "' was not found while constructing f32 instruction")
        else
          match split_once instruction '(' with
          | none => .error "called Option.unwrap on a None value"
          | some nd =>
            let params := get_instruction_params nd.2
            if nd.1 = "If" then
              match getParam params 0 with
              | .error e => .error e
              | .ok p0 =>
                match build_bool_instruction n p0 fields with
                | .error e => .error e
                | .ok cond =>
                  match getParam params 1 with
                  | .error e => .error e
                  | .ok p1 =>
                    match build_f32_instruction n p1 fields with
                    | .error e => .error e
                    | .ok v1 =>
                      match getParam params 2 with
                      | .error e => .error e
                      | .ok p2 =>
                        match build_f32_instruction n p2 fields with
                        | .error e => .error e
                        | .ok v2 => .ok (.if_ cond v1 v2)
            else if nd.1 = "Add" then
              match getParam params 0 with
              | .error e => .error e
              | .ok p0 =>
                match build_f32_instruction n p0 fields with
                | .error e => .error e
                | .ok v1 =>
                  match getParam params 1 with
                  | .error e => .error e
                  | .ok p1 =>
                    match build_f32_instruction n p1 fields with
                    | .error e => .error e
                    | .ok v2 => .ok (.add v1 v2)
            else
              .error ("Unable to process given instruction for type f32: " ++ nd.1)
end

/-- The voxel-type builder (`build_voxel_type_instruction`): always splits
at the first opening parenthesis (a plain literal or bare identifier
panics on the unwrap); `If` recurses, `Voxel` resolves its argument in the
external registry at compile time. -/
def build_voxel_type_instruction (fuel : Nat) (registry : String → Option Nat)
    (instruction : String) (fields : Fields) : Except String U16Instruction :=
  match fuel with
  | 0 => .error "out of fuel"
  | n + 1 =>
    match split_once instruction '(' with
    | none => .error "called Option.unwrap on a None value"
    | some nd =>
      let params := get_instruction_params nd.2
      if nd.1 = "If" then
        match getParam params 0 with
        | .error e => .error e
        | .ok p0 =>
          match build_bool_instruction n p0 fields with
          | .error e => .error e
          | .ok cond =>
            match getParam params 1 with
            | .error e => .error e
            | .ok p1 =>
              match build_voxel_type_instruction n registry p1 fields with
              | .error e => .error e
              | .ok v1 =>
                match getParam params 2 with
                | .error e => .error e
                | .ok p2 =>
                  match build_voxel_type_instruction n registry p2 fields with
                  | .error e => .error e
                  | .ok v2 => .ok (.if_ cond v1 v2)
      else if nd.1 = "Voxel" then
        match getParam params 0 with
        | .error e => .error e
        | .ok p0 =>
          match registry p0 with
          | some id => .ok (.const id)
          | none => .error "called Option.unwrap on a None value"
      else .error ("Unable to process given instruction: " ++ nd.1)

/-- The voxel-shape builder (`build_voxel_shape_instruction`): with no
parenthesis the text is a shape constant (`CUBE` or `SLAB`, anything else
panics); otherwise only `If` is supported. -/
def build_voxel_shape_instruction (fuel : Nat) (instruction : String)
    (fields : Fields) : Except String ShapeInstruction :=
  match fuel with
  | 0 => .error "out of fuel"
  | n + 1 =>
    if ¬ containsChar instruction.data '(' then
      if instruction = "CUBE" then .ok (.const .CUBE)
      else if instruction = "SLAB" then .ok (.const .SLAB)
      else .error ("Shape '" ++ instruction ++ "' does is not defined")
    else
      match split_once instruction '(' with
      | none => .error "called Option.unwrap on a None value"
      | some nd =>
        let params := get_instruction_params nd.2
        if nd.1 = "If" then
          match getParam params 0 with
          | .error e => .error e
          | .ok p0 =>
            match build_bool_instruction n p0 fields with
            | .error e => .error e
            | .ok cond =>
              match getParam params 1 with
              | .error e => .error e
              | .ok p1 =>
                match build_voxel_shape_instruction n p1 fields with
                | .error e => .error e
                | .ok v1 =>
                  match getParam params 2 with
                  | .error e => .error e
                  | .ok p2 =>
                    match build_voxel_shape_instruction n p2 fields with
                    | .error e => .error e
                    | .ok v2 => .ok (.if_ cond v1 v2)
        else .error ("Unable to process given instruction: " ++ nd.1)

/-- The parsed JSON value tree (the narrow interface of the external
`serde_json::Value` used by the code: object fields, arrays, strings and
64-bit floats). -/
inductive Json where
  | str : String → Json
  | num : Rat → Json
  | arr : List Json → Json
  | obj : List (String × Json) → Json

/-- Object-field access (`Value::get`). -/
def Json.get : Json → String → Option Json
  | .obj kvs, key => (kvs.find? (fun kv => kv.1 = key)).map (fun kv => kv.2)
  | _, _ => none

/-- String access (`Value::as_str`). -/
def Json.as_str : Json → Option String
  | .str s => some s
  | _ => none

/-- Array access (`Value::as_array`). -/
def Json.as_array : Json → Option (List Json)
  | .arr l => some l
  | _ => none

/-- Float access (`Value::as_f64`). -/
def Json.as_f64 : Json → Option Rat
  | .num q => some q
  | _ => none

/-- The sampler-field loop of `BiomeProfile::from_json`: fields are
compiled in declaration order, each against the bindings accumulated so
far (a `Simplex` field becomes a noise leaf storing its wavelength and
amplitude; a `Formula` field is compiled by the number builder), then
inserted under the field's declared name. -/
def buildFields (fuel : Nat) : List Json → Fields → Except String Fields
  | [], fields => .ok fields
  | field :: rest, fields =>
    match (field.get "Type").bind Json.as_str with
    | none => .error "called Option.unwrap on a None value"
    | some fieldType =>
      match (field.get "Name").bind Json.as_str with
      | none => .error "called Option.unwrap on a None value"
      | some fieldName =>
        let compiled : Except String F32Instruction :=
          if fieldType = "Simplex" then
            match (field.get "Wavelength").bind Json.as_f64 with
            | none => .error "called Option.unwrap on a None value"
            | some w =>
              match (field.get "Amplitude").bind Json.as_f64 with
              | none => .error "called Option.unwrap on a None value"
              | some a => .ok (.simplex w a)
          else if fieldType = "Formula" then
            match (field.get "Formula").bind Json.as_str with
            | none => .error "called Option.unwrap on a None value"
            | some f => build_f32_instruction fuel f fields
          else .error ("Field type is not supported: " ++ fieldType)
        match compiled with
        | .error e => .error e
        | .ok t => buildFields fuel rest (insertField fields fieldName t)

/-- The compiled artifact (`BiomeProfile`): three instruction trees built
from one JSON document. -/
structure BiomeProfile where
  density_formula : F32Instruction
  id_formula : U16Instruction
  shape_formula : ShapeInstruction

namespace BiomeProfile

/-- `BiomeProfile::from_json`, embedded from the parsed JSON value onward:
build the field bindings from the `Samplers` list in declaration order,
then compile `Voxel Density` with the number builder, `Voxel Type` with
the voxel-type builder and `Voxel Shape` with the voxel-shape builder. -/
def from_json (fuel : Nat) (registry : String → Option Nat) (json : Json) :
    Except String BiomeProfile :=
  match (json.get "Samplers").bind Json.as_array with
  | none => .error "called Option.unwrap on a None value"
  | some samplers =>
    match buildFields fuel samplers emptyFields with
    | .error e => .error e
    | .ok fields =>
      match (json.get "Voxel Density").bind Json.as_str with
      | none => .error "called Option.unwrap on a None value"
      | some densityText =>
        match build_f32_instruction fuel densityText fields with
        | .error e => .error e
        | .ok densityF =>
          match (json.get "Voxel Type").bind Json.as_str with
          | none => .error "called Option.unwrap on a None value"
          | some idText =>
            match build_voxel_type_instruction fuel registry idText fields with
            | .error e => .error e
            | .ok idF =>
              match (json.get "Voxel Shape").bind Json.as_str with
              | none => .error "called Option.unwrap on a None value"
              | some shapeText =>
                match build_voxel_shape_instruction fuel shapeText fields with
                | .error e => .error e
                | .ok shapeF =>
                  .ok { density_formula := densityF, id_formula := idF,
                        shape_formula := shapeF }

/-- `BiomeProfile::sample_density`: evaluate the density tree. -/
def sample_density (p : BiomeProfile) (noise : IVec3 → Rat) (c : SampleContext) : Rat :=
  processF32 noise c p.density_formula

/-- `BiomeProfile::sample_voxel`: evaluate the voxel-type tree and the
shape tree and package the result with the fixed default state 0. -/
def sample_voxel (p : BiomeProfile) (noise : IVec3 → Rat) (c : SampleContext) : VoxelData :=
  { shape := processShape noise c p.shape_formula
    state := 0
    id := processU16 noise c p.id_formula }

end BiomeProfile

/-- Helper: string concatenation acts as list concatenation on the
underlying character data. -/
theorem string_data_append (s t : String) : (s ++ t).data = s.data ++ t.data := by
  cases s
  cases t
  rfl

/-- Claim C4: the Parameter Splitter returns the top-level comma-separated
arguments: `"a,b,c)"` yields exactly `["a","b","c"]`; on the nested input
`"f(a,b),c)"` the comma inside the nested parentheses does not split, so it
yields `["f(a,b)","c"]`; and when the unmatched closing parenthesis is
found, the text accumulated since the last depth-0 comma becomes the final
argument and scanning stops immediately (text after it is never
inspected). -/
theorem c4_param_splitter_toplevel_args :
    get_instruction_params "a,b,c)" = ["a", "b", "c"] ∧
    get_instruction_params "f(a,b),c)" = ["f(a,b)", "c"] ∧
    get_instruction_params "a,b)x,y" = ["a", "b"] := by
  decide

/-- Claim C10: when the splitter's input ends before any unmatched closing
parenthesis, the characters accumulated since the last depth-0 comma are
silently discarded: `"a,b"` yields `["a"]` and the fully balanced `"f(a)"`
yields `[]`. -/
theorem c10_splitter_discards_trailing :
    get_instruction_params "a,b" = ["a"] ∧
    get_instruction_params "f(a)" = [] := by
  decide

/-- Claim C1: the number builder does not dispatch `Subtract` — compiling
`"Subtract(1,2)"` hits the unsupported-instruction panic arm, even though
`SubtractInstruction` exists and would evaluate to the difference of its
two sub-results (second conjunct, at a concrete input). -/
theorem c1_subtract_not_dispatched :
    build_f32_instruction 5 "Subtract(1,2)" emptyFields =
      .error "Unable to process given instruction for type f32: Subtract" ∧
    processF32 (fun _ => 0) ⟨⟨0, 0, 0⟩, 0, 0, 0, 0⟩
      (.sub (.const 5) (.const 2)) = 3 := by
  constructor
  · decide
  · norm_num [processF32]

/-- Claim C9: compiling the literal formula `"0.2"` produces a constant
node holding exactly the rational 0.2, and evaluating that node returns
0.2 for every sample context, independent of the context and of the
field-binding table. -/
theorem c9_literal_roundtrip (n : Nat) (fields : Fields) :
    build_f32_instruction (n + 1) "0.2" fields = .ok (.const (0.2 : Rat)) ∧
    ∀ (noise : IVec3 → Rat) (c : SampleContext),
      processF32 noise c (.const (0.2 : Rat)) = 0.2 := by
  constructor
  · norm_num +decide [build_f32_instruction, parseF32, spanDigits, digitsToNat, digitVal,
      parseExp, parseExpDigits, applyExp]
  · intro noise c
    rfl

/-- Claim C6: evaluation is deterministic and stateless — for every
compiled tree of any of the four result types, evaluating against two
contexts whose fields are identical yields identical outputs. -/
theorem c6_evaluation_deterministic (noise : IVec3 → Rat) (c₁ c₂ : SampleContext)
    (hpos : c₁.position = c₂.position) (hdep : c₁.depth = c₂.depth)
    (hmoi : c₁.moisture = c₂.moisture) (htem : c₁.temperature = c₂.temperature)
    (hden : c₁.density = c₂.density) :
    (∀ t : F32Instruction, processF32 noise c₁ t = processF32 noise c₂ t) ∧
    (∀ t : BoolInstruction, processBool noise c₁ t = processBool noise c₂ t) ∧
    (∀ t : U16Instruction, processU16 noise c₁ t = processU16 noise c₂ t) ∧
    (∀ t : ShapeInstruction, processShape noise c₁ t = processShape noise c₂ t) := by
  have h : c₁ = c₂ := by
    cases c₁
    cases c₂
    simp only at hpos hdep hmoi htem hden
    simp [hpos, hdep, hmoi, htem, hden]
  subst h
  exact ⟨fun _ => rfl, fun _ => rfl, fun _ => rfl, fun _ => rfl⟩

/-- Witness for C6 at concrete contexts with equal fields. -/
theorem c6_evaluation_deterministic_witness :
    (∀ t : F32Instruction,
      processF32 (fun _ => 0) ⟨⟨1, 2, 3⟩, 4, 5, 6, 7⟩ t =
        processF32 (fun _ => 0) ⟨⟨1, 2, 3⟩, 4, 5, 6, 7⟩ t) ∧
    (∀ t : BoolInstruction,
      processBool (fun _ => 0) ⟨⟨1, 2, 3⟩, 4, 5, 6, 7⟩ t =
        processBool (fun _ => 0) ⟨⟨1, 2, 3⟩, 4, 5, 6, 7⟩ t) ∧
    (∀ t : U16Instruction,
      processU16 (fun _ => 0) ⟨⟨1, 2, 3⟩, 4, 5, 6, 7⟩ t =
        processU16 (fun _ => 0) ⟨⟨1, 2, 3⟩, 4, 5, 6, 7⟩ t) ∧
    (∀ t : ShapeInstruction,
      processShape (fun _ => 0) ⟨⟨1, 2, 3⟩, 4, 5, 6, 7⟩ t =
        processShape (fun _ => 0) ⟨⟨1, 2, 3⟩, 4, 5, 6, 7⟩ t) :=
  c6_evaluation_deterministic (fun _ => 0) ⟨⟨1, 2, 3⟩, 4, 5, 6, 7⟩
    ⟨⟨1, 2, 3⟩, 4, 5, 6, 7⟩ rfl rfl rfl rfl rfl

/-- Claim C7: two noise-sample leaves with arbitrary, possibly different,
wavelength and amplitude evaluate to the same number on any two contexts
sharing the same position — the stored parameters are ignored and the
output is a function of position only. -/
theorem c7_simplex_position_only (w₁ a₁ w₂ a₂ : Rat) (noise : IVec3 → Rat)
    (c₁ c₂ : SampleContext) (hpos : c₁.position = c₂.position) :
    processF32 noise c₁ (.simplex w₁ a₁) = processF32 noise c₂ (.simplex w₂ a₂) := by
  simp [processF32, hpos]

/-- Witness for C7 at concrete wavelengths, amplitudes and contexts that
share a position but differ in every other field. -/
theorem c7_simplex_position_only_witness :
    processF32 (fun v => v.x) ⟨⟨1, 2, 3⟩, 4, 5, 6, 7⟩ (.simplex 10 20) =
      processF32 (fun v => v.x) ⟨⟨1, 2, 3⟩, 8, 9, 10, 11⟩ (.simplex 30 40) :=
  c7_simplex_position_only 10 20 30 40 (fun v => v.x)
    ⟨⟨1, 2, 3⟩, 4, 5, 6, 7⟩ ⟨⟨1, 2, 3⟩, 8, 9, 10, 11⟩ rfl

/-- Claim C8: compiling `"Foo"` as a number formula against any
field-binding table with no binding named `"Foo"` fails with the
unresolved-symbol error; it never succeeds with a default value. -/
theorem c8_unknown_symbol_fails (n : Nat) (fields : Fields)
    (h : fields "Foo" = none) :
    build_f32_instruction (n + 1) "Foo" fields =
      .error "Constant variable 'Foo' was not found while constructing f32 instruction" := by
  simp +decide [build_f32_instruction, parseF32, spanDigits, containsChar, h]

/-- Witness for C8 at the empty field-binding table. -/
theorem c8_unknown_symbol_fails_witness :
    emptyFields "Foo" = none ∧
    build_f32_instruction 1 "Foo" emptyFields =
      .error "Constant variable 'Foo' was not found while constructing f32 instruction" :=
  ⟨rfl, c8_unknown_symbol_fails 0 emptyFields rfl⟩

/-- Counterexample to claim C5 as stated: the bare text `"AmbientDensity"`
is not a recognized context-accessor tag — the number builder fails on it
with the unresolved-symbol panic (the code's fourth tag is the literal
`"Density"`). -/
theorem c5_ambientdensity_not_a_tag :
    build_f32_instruction 5 "AmbientDensity" emptyFields =
      .error "Constant variable 'AmbientDensity' was not found while constructing f32 instruction" := by
  decide

/-- Claim C5 (amended): for every parenthesis-free formula text that is
not a numeric literal (nothing the float grammar accepts — neither a
finite literal nor a special `inf`/`infinity`/`nan` spelling) and not a
declared field name, the number builder resolves the four bare tags
`Depth`, `Moisture`, `Temperature` and `Density` to accessor nodes
returning the context's depth, moisture, temperature and ambient density
respectively, and fails with the unresolved-symbol error for any other
identifier. -/
theorem c5_accessor_tags (n : Nat) (fields : Fields) (s : String)
    (hD : fields "Depth" = none) (hM : fields "Moisture" = none)
    (hT : fields "Temperature" = none) (hA : fields "Density" = none)
    (hp : parsesAsF32 s = false) (hf : fields s = none)
    (hnp : containsChar s.data '(' = false)
    (h1 : s ≠ "Depth") (h2 : s ≠ "Moisture") (h3 : s ≠ "Temperature")
    (h4 : s ≠ "Density") :
    build_f32_instruction (n + 1) "Depth" fields = .ok .depth ∧
    build_f32_instruction (n + 1) "Moisture" fields = .ok .moisture ∧
    build_f32_instruction (n + 1) "Temperature" fields = .ok .temperature ∧
    build_f32_instruction (n + 1) "Density" fields = .ok .density ∧
    (∀ (noise : IVec3 → Rat) (c : SampleContext),
      processF32 noise c .depth = c.depth ∧
      processF32 noise c .moisture = c.moisture ∧
      processF32 noise c .temperature = c.temperature ∧
      processF32 noise c .density = c.density) ∧
    build_f32_instruction (n + 1) s fields =
      .error ("Constant variable '" ++ s ++
        "' was not found while constructing f32 instruction") := by
  refine ⟨?_, ?_, ?_, ?_, ?_, ?_⟩
  · simp +decide [build_f32_instruction, parseF32, spanDigits, containsChar, hD]
  · simp +decide [build_f32_instruction, parseF32, spanDigits, containsChar, hM]
  · simp +decide [build_f32_instruction, parseF32, spanDigits, containsChar, hT]
  · simp +decide [build_f32_instruction, parseF32, spanDigits, containsChar, hA]
  · intro noise c
    exact ⟨rfl, rfl, rfl, rfl⟩
  · have hpf : parseF32 s = none := by
      cases hcase : parseF32 s with
      | none => rfl
      | some v =>
        rw [parsesAsF32, hcase] at hp
        simp at hp
    simp [build_f32_instruction, hpf, hf, hnp, h1, h2, h3, h4]

/-- Witness for the amended C5 with the empty binding table and the
unresolvable identifier `"Bar"`. -/
theorem c5_accessor_tags_witness :
    emptyFields "Depth" = none ∧ parsesAsF32 "Bar" = false ∧
    containsChar "Bar".data '(' = false ∧
    build_f32_instruction 1 "Depth" emptyFields = .ok .depth ∧
    build_f32_instruction 1 "Bar" emptyFields =
      .error ("Constant variable '" ++ "Bar" ++
        "' was not found while constructing f32 instruction") := by
  have h := c5_accessor_tags 0 emptyFields "Bar" rfl rfl rfl rfl (by decide) rfl
    (by decide) (by decide) (by decide) (by decide) (by decide)
  exact ⟨rfl, by decide, by decide, h.1, h.2.2.2.2.2⟩

/-- The end-to-end configuration document of claim C2: an empty `Samplers`
list, density formula `Add(1,2)`, voxel-type formula `Voxel(Stone)` and
shape formula `CUBE`. -/
def endToEndDoc : Json :=
  .obj [("Samplers", .arr []),
        ("Voxel Density", .str "Add(1,2)"),
        ("Voxel Type", .str "Voxel(Stone)"),
        ("Voxel Shape", .str "CUBE")]

/-- Claim C2: on the end-to-end document, with a registry mapping
`"Stone"` to id 7, `from_json` succeeds with the constant trees
`Add(1,2)`, `7` and `CUBE`, and for every sample context `sample_density`
returns 3 and `sample_voxel` returns the record with shape `CUBE`,
state 0 and id 7. -/
theorem c2_end_to_end (n : Nat) (registry : String → Option Nat)
    (hreg : registry "Stone" = some 7) :
    BiomeProfile.from_json (n + 2) registry endToEndDoc =
      .ok ⟨.add (.const 1) (.const 2), .const 7, .const .CUBE⟩ ∧
    ∀ (noise : IVec3 → Rat) (c : SampleContext),
      BiomeProfile.sample_density ⟨.add (.const 1) (.const 2), .const 7, .const .CUBE⟩
        noise c = 3 ∧
      BiomeProfile.sample_voxel ⟨.add (.const 1) (.const 2), .const 7, .const .CUBE⟩
        noise c = ⟨.CUBE, 0, 7⟩ := by
  constructor
  · norm_num +decide [BiomeProfile.from_json, endToEndDoc, Json.get, Json.as_array,
      Json.as_str, buildFields, build_f32_instruction, build_voxel_type_instruction,
      build_voxel_shape_instruction, build_bool_instruction, parseF32, parseExp, parseExpDigits, applyExp, spanDigits,
      digitsToNat, digitVal, split_once, splitOnceChars, get_instruction_params,
      paramsLoop, strTrimList, trimChars, containsChar, getParam, emptyFields, hreg]
  · intro noise c
    constructor
    · norm_num [BiomeProfile.sample_density, processF32]
    · rfl

/-- Witness for C2 with the concrete registry mapping exactly `"Stone"`
to 7. -/
theorem c2_end_to_end_witness :
    (fun s => if s = "Stone" then some 7 else none : String → Option Nat) "Stone"
        = some 7 ∧
    BiomeProfile.from_json 2 (fun s => if s = "Stone" then some 7 else none)
        endToEndDoc =
      .ok ⟨.add (.const 1) (.const 2), .const 7, .const .CUBE⟩ :=
  ⟨by decide, (c2_end_to_end 0 (fun s => if s = "Stone" then some 7 else none)
    (by decide)).1⟩

/-- Helper: the boolean builder compiles `"Less(1,2)"` to a strict
comparison of the constants 1 and 2 at any sufficient fuel. -/
theorem build_less12 (m : Nat) (fields : Fields) :
    build_bool_instruction (m + 2) "Less(1,2)" fields =
      .ok (.less (.const 1) (.const 2)) := by
  norm_num +decide [build_bool_instruction, build_f32_instruction, parseF32, parseExp,
    parseExpDigits, applyExp, spanDigits, digitsToNat, digitVal, split_once,
    splitOnceChars, get_instruction_params, paramsLoop, strTrimList, trimChars, getParam]

/-- Helper: the boolean builder compiles `"Less(2,1)"` to a strict
comparison of the constants 2 and 1 at any sufficient fuel. -/
theorem build_less21 (m : Nat) (fields : Fields) :
    build_bool_instruction (m + 2) "Less(2,1)" fields =
      .ok (.less (.const 2) (.const 1)) := by
  norm_num +decide [build_bool_instruction, build_f32_instruction, parseF32, parseExp,
    parseExpDigits, applyExp, spanDigits, digitsToNat, digitVal, split_once,
    splitOnceChars, get_instruction_params, paramsLoop, strTrimList, trimChars, getParam]

/-- Claim C3: for number-typed sub-formulas A and B that compile to trees
a and b, and whose framing the Parameter Splitter resolves to the three
top-level arguments, the compiled tree for `If(Less(1,2),A,B)` always
evaluates to a's value and the compiled tree for `If(Less(2,1),A,B)`
always evaluates to b's value — the If node selects its first branch
exactly when the condition holds and Less is strict less-than. -/
theorem c3_conditional_selects_branch (n : Nat) (fields : Fields) (A B : String)
    (a b : F32Instruction) (hn : 2 ≤ n)
    (hA : build_f32_instruction n A fields = .ok a)
    (hB : build_f32_instruction n B fields = .ok b)
    (hf1 : fields ("If(Less(1,2)," ++ A ++ "," ++ B ++ ")") = none)
    (hf2 : fields ("If(Less(2,1)," ++ A ++ "," ++ B ++ ")") = none)
    (hs1 : get_instruction_params ("Less(1,2)," ++ A ++ "," ++ B ++ ")") =
      ["Less(1,2)", A, B])
    (hs2 : get_instruction_params ("Less(2,1)," ++ A ++ "," ++ B ++ ")") =
      ["Less(2,1)", A, B]) :
    build_f32_instruction (n + 1) ("If(Less(1,2)," ++ A ++ "," ++ B ++ ")") fields =
      .ok (.if_ (.less (.const 1) (.const 2)) a b) ∧
    build_f32_instruction (n + 1) ("If(Less(2,1)," ++ A ++ "," ++ B ++ ")") fields =
      .ok (.if_ (.less (.const 2) (.const 1)) a b) ∧
    (∀ (noise : IVec3 → Rat) (c : SampleContext),
      processF32 noise c (.if_ (.less (.const 1) (.const 2)) a b) =
        processF32 noise c a) ∧
    (∀ (noise : IVec3 → Rat) (c : SampleContext),
      processF32 noise c (.if_ (.less (.const 2) (.const 1)) a b) =
        processF32 noise c b) := by
  obtain ⟨m, rfl⟩ : ∃ m, n = m + 2 := ⟨n - 2, by omega⟩
  refine ⟨?_, ?_, ?_, ?_⟩
  · have hb := build_less12 m fields
    simp +decide [get_instruction_params, string_data_append, paramsLoop, strTrimList,
      trimChars] at hs1
    rw [build_f32_instruction.eq_def]
    simp +decide [parseF32, spanDigits, containsChar, split_once, splitOnceChars,
      string_data_append, get_instruction_params, paramsLoop, strTrimList, trimChars,
      getParam, hf1, hs1, hb, hA, hB]
  · have hb := build_less21 m fields
    simp +decide [get_instruction_params, string_data_append, paramsLoop, strTrimList,
      trimChars] at hs2
    rw [build_f32_instruction.eq_def]
    simp +decide [parseF32, spanDigits, containsChar, split_once, splitOnceChars,
      string_data_append, get_instruction_params, paramsLoop, strTrimList, trimChars,
      getParam, hf2, hs2, hb, hA, hB]
  · intro noise c
    norm_num [processF32, processBool]
  · intro noise c
    norm_num [processF32, processBool]

/-- Witness for C3 with A = "3" and B = "4" against the empty binding
table. -/
theorem c3_conditional_selects_branch_witness :
    2 ≤ 2 ∧
    build_f32_instruction (2 + 1) ("If(Less(1,2)," ++ "3" ++ "," ++ "4" ++ ")")
        emptyFields = .ok (.if_ (.less (.const 1) (.const 2)) (.const 3) (.const 4)) := by
  have h := c3_conditional_selects_branch 2 emptyFields "3" "4" (.const 3) (.const 4)
    (by decide)
    (by norm_num +decide [build_f32_instruction, parseF32, parseExp, parseExpDigits,
      applyExp, spanDigits, digitsToNat, digitVal])
    (by norm_num +decide [build_f32_instruction, parseF32, parseExp, parseExpDigits,
      applyExp, spanDigits, digitsToNat, digitVal])
    rfl rfl (by decide) (by decide)
  exact ⟨by decide, h.1⟩
